import Mathlib

/-!
Verification development for the Grafana HTTP server bootstrap
(`pkg/api`: `HTTPServer.Run`, `getListener`, `configureHttps`,
`configureHttp2`, `addMiddlewaresAndStaticRoutes`, the liveness
handlers `healthzHandler`, `apiHealthHandler`, `metricsEndpoint`,
and `mapStatic`).

The Go code is shallowly embedded: pure control flow becomes Lean
functions, the file system becomes an explicit list of existing paths,
the outcome of the accept loop (`http.Server.Serve` / `ServeTLS`)
becomes an explicit parameter, and each middleware stage becomes a
function from a request to a stage outcome (pass through, write a
response, or delegate to an external handler).
-/

namespace GrafanaHTTP

/-- Transport protocol selector (`Cfg.Protocol`). The recognized values
are the `setting` scheme constants matched by the `switch` statements in
`Run` and `getListener`; `other` covers every unrecognized mode. -/
inductive Protocol where
  | http
  | https
  | http2
  | socket
  | other (s : String)
  deriving BEq, DecidableEq, Repr

/-- Environment selector (`Cfg.Env`); only comparison against
`setting.Dev` matters to the embedded code. -/
inductive Env where
  | dev
  | prod
  | test
  | custom (s : String)
  deriving BEq, DecidableEq, Repr

/-- The slice of `setting.Cfg` read by the embedded functions. -/
structure Cfg where
  protocol : Protocol
  httpAddr : String
  httpPort : String
  certFile : String
  keyFile : String
  socketPath : String
  appSubURL : String
  serveFromSubPath : Bool
  staticRootPath : String
  enableGzip : Bool
  enforceDomain : Bool
  env : Env
  imageUploadProvider : String
  metricsEndpointEnabled : Bool
  metricsEndpointBasicAuthUsername : String
  metricsEndpointBasicAuthPassword : String
  anonymousHideVersion : Bool
  buildVersion : String
  buildCommit : String
  deriving BEq, DecidableEq, Repr

/-- An incoming HTTP request as observed by the embedded middleware:
method, URL path, and the basic-auth credentials it carries, if any. -/
structure Request where
  method : String
  path : String
  basicAuth : Option (String × String)
  deriving BEq, DecidableEq, Repr

/-- Response bodies written by the embedded handlers. `health` is the
structured JSON payload built by `apiHealthHandler` via `simplejson`:
a `database` field and optional `version`/`commit` fields. -/
inductive Body where
  | empty
  | plain (s : String)
  | health (database : String) (version : Option String) (commit : Option String)
  deriving BEq, DecidableEq, Repr

/-- A response written by a middleware stage: status code and body. -/
structure Response where
  status : Nat
  body : Body
  deriving BEq, DecidableEq, Repr

/-- Outcome of one middleware stage on one request: fall through to the
next stage, write a response itself (short-circuiting the chain), or
delegate to an external handler such as `promhttp` (also
short-circuiting). -/
inductive StageOut where
  | pass
  | respond (r : Response)
  | delegate (handler : String)
  deriving BEq, DecidableEq, Repr

/-- A middleware stage (`web.Handler` used via `m.Use`). -/
abbrev Stage : Type := Request → StageOut

/-- `healthzHandler` (part_000 lines 497-508): on GET/HEAD to exactly
`/healthz`, write 200 with body `Ok`; otherwise fall through. -/
def healthzHandler (req : Request) : StageOut :=
  let notHeadOrGet := !(req.method == "GET") && !(req.method == "HEAD")
  if notHeadOrGet || !(req.path == "/healthz") then
    .pass
  else
    .respond { status := 200, body := .plain "Ok" }

/-- `apiHealthHandler` (part_000 lines 513-544): on GET/HEAD to exactly
`/api/health`, build the JSON payload (`database` is `"ok"`, plus
`version`/`commit` unless `AnonymousHideVersion`), then probe the
database (`hs.databaseHealthy`, an external call whose result is the
`dbHealthy` parameter): on failure rewrite `database` to `"failing"`
and write 503, on success write 200. Otherwise fall through. -/
def apiHealthHandler (cfg : Cfg) (dbHealthy : Bool) (req : Request) : StageOut :=
  let notHeadOrGet := !(req.method == "GET") && !(req.method == "HEAD")
  if notHeadOrGet || !(req.path == "/api/health") then
    .pass
  else
    let version := if !cfg.anonymousHideVersion then some cfg.buildVersion else none
    let commit := if !cfg.anonymousHideVersion then some cfg.buildCommit else none
    if !dbHealthy then
      .respond { status := 503, body := .health "failing" version commit }
    else
      .respond { status := 200, body := .health "ok" version commit }

/-- Modelled from the spec: `BasicAuthenticatedRequest` is declared in a
part of the repository outside the shown sources. Per the spec it checks
the request's HTTP Basic credentials against the configured username and
password ("optionally requires HTTP Basic authentication against
configured credentials"). -/
def BasicAuthenticatedRequest (req : Request) (user password : String) : Bool :=
  req.basicAuth == some (user, password)

/-- `metricsEndpointBasicAuthEnabled` (part_000 lines 573-575). -/
def metricsEndpointBasicAuthEnabled (cfg : Cfg) : Bool :=
  !(cfg.metricsEndpointBasicAuthUsername == "") && !(cfg.metricsEndpointBasicAuthPassword == "")

/-- `metricsEndpoint` (part_000 lines 477-494): fall through unless the
endpoint is enabled and the request is exactly GET `/metrics`; if basic
auth is enabled and the request is not authenticated, write 401 with no
body; otherwise delegate to the `promhttp` exposition handler. -/
def metricsEndpoint (cfg : Cfg) (req : Request) : StageOut :=
  if !cfg.metricsEndpointEnabled then
    .pass
  else if !(req.method == "GET") || !(req.path == "/metrics") then
    .pass
  else if metricsEndpointBasicAuthEnabled cfg &&
      !(BasicAuthenticatedRequest req cfg.metricsEndpointBasicAuthUsername
          cfg.metricsEndpointBasicAuthPassword) then
    .respond { status := 401, body := .empty }
  else
    .delegate "promhttp"

/-- The `Cache-Control` header value selected by `mapStatic`
(part_000 lines 546-561): default short-lived caching, overridden for
the `public/build` prefix with a one-year value, and overridden again
for every mapping when the environment is `Dev`. -/
def mapStaticCacheControl (env : Env) (pfx : String) : String :=
  let headers := "public, max-age=3600"
  let headers := if pfx == "public/build" then "public, max-age=31536000" else headers
  let headers := if env == Env.dev then "max-age=0, must-revalidate, no-cache" else headers
  headers

/-- `strings.TrimPrefix` (over the character list, so that concrete
instances evaluate). -/
def trimPrefixStr (s pre : String) : String :=
  if pre.data.isPrefixOf s.data then String.mk (s.data.drop pre.data.length) else s

/-- `strings.TrimSuffix` (over the character list). -/
def trimSuffixStr (s suf : String) : String :=
  if suf.data.isSuffixOf s.data then
    String.mk (s.data.take (s.data.length - suf.data.length))
  else s

/-- `net.JoinHostPort`: brackets the host when it contains a colon
(character code 58). -/
def joinHostPort (host port : String) : String :=
  if host.data.contains (Char.ofNat 58) then "[" ++ host ++ "]:" ++ port
  else host ++ ":" ++ port

/-- A bound listener: either the externally supplied one
(`hs.Listener`, used as-is), a TCP listener on the server address, or a
Unix domain socket listener. -/
inductive Listener where
  | supplied (id : Nat)
  | tcp (addr : String)
  | unix (socketPath : String)
  deriving BEq, DecidableEq, Repr

/-- The server address computed at the top of `Run` (part_000 lines
238-240): IPv6 brackets stripped from `HTTPAddr`, then joined with
`HTTPPort`. -/
def serverAddr (cfg : Cfg) : String :=
  joinHostPort (trimSuffixStr (trimPrefixStr cfg.httpAddr "[") "]") cfg.httpPort

/-- The TLS configuration assembled by `configureHttps` /
`configureHttp2` (cipher suites named, not numeric, for readability). -/
structure TLSConfig where
  minVersion : String
  preferServerCipherSuites : Bool
  cipherSuites : List String
  nextProtos : List String
  deriving BEq, DecidableEq, Repr

/-- `configureHttps` (part_000 lines 334-373): reject an empty cert or
key path, then reject a cert or key path that does not exist on disk
(`fs` is the set of existing files), then build the TLS 1.2+ config
with the conservative AEAD+CBC cipher list and disabled protocol
upgrade (empty `TLSNextProto`, modelled as empty `nextProtos`). -/
def configureHttps (cfg : Cfg) (fs : List String) : Except String TLSConfig :=
  if cfg.certFile == "" then
    .error "cert_file cannot be empty when using HTTPS"
  else if cfg.keyFile == "" then
    .error "cert_key cannot be empty when using HTTPS"
  else if !(fs.contains cfg.certFile) then
    .error ("cannot find SSL cert_file at \"" ++ cfg.certFile ++ "\"")
  else if !(fs.contains cfg.keyFile) then
    .error ("cannot find SSL key_file at \"" ++ cfg.keyFile ++ "\"")
  else
    .ok { minVersion := "TLS12"
          preferServerCipherSuites := true
          cipherSuites :=
            ["TLS_ECDHE_ECDSA_WITH_AES_128_GCM_SHA256",
             "TLS_ECDHE_RSA_WITH_AES_128_GCM_SHA256",
             "TLS_ECDHE_ECDSA_WITH_AES_256_GCM_SHA384",
             "TLS_ECDHE_RSA_WITH_AES_256_GCM_SHA384",
             "TLS_ECDHE_RSA_WITH_AES_128_CBC_SHA",
             "TLS_ECDHE_ECDSA_WITH_AES_256_CBC_SHA",
             "TLS_ECDHE_RSA_WITH_AES_256_CBC_SHA",
             "TLS_RSA_WITH_AES_128_GCM_SHA256",
             "TLS_RSA_WITH_AES_256_GCM_SHA384",
             "TLS_RSA_WITH_AES_128_CBC_SHA",
             "TLS_RSA_WITH_AES_256_CBC_SHA"]
          nextProtos := [] }

/-- `configureHttp2` (part_000 lines 375-412): same empty-path and
file-existence checks as `configureHttps`, then the modern AEAD-only
cipher list and ALPN advertising h2 then http/1.1. -/
def configureHttp2 (cfg : Cfg) (fs : List String) : Except String TLSConfig :=
  if cfg.certFile == "" then
    .error "cert_file cannot be empty when using HTTP2"
  else if cfg.keyFile == "" then
    .error "cert_key cannot be empty when using HTTP2"
  else if !(fs.contains cfg.certFile) then
    .error ("cannot find SSL cert_file at \"" ++ cfg.certFile ++ "\"")
  else if !(fs.contains cfg.keyFile) then
    .error ("cannot find SSL key_file at \"" ++ cfg.keyFile ++ "\"")
  else
    .ok { minVersion := "TLS12"
          preferServerCipherSuites := true
          cipherSuites :=
            ["TLS_CHACHA20_POLY1305_SHA256",
             "TLS_AES_128_GCM_SHA256",
             "TLS_AES_256_GCM_SHA384",
             "TLS_ECDHE_ECDSA_WITH_AES_128_GCM_SHA256",
             "TLS_ECDHE_RSA_WITH_AES_128_GCM_SHA256",
             "TLS_ECDHE_ECDSA_WITH_AES_256_GCM_SHA384",
             "TLS_ECDHE_RSA_WITH_AES_256_GCM_SHA384",
             "TLS_ECDHE_ECDSA_WITH_CHACHA20_POLY1305",
             "TLS_ECDHE_RSA_WITH_CHACHA20_POLY1305"]
          nextProtos := ["h2", "http/1.1"] }

/-- The transport-configuration `switch` at the top of `Run` (part_000
lines 244-254): HTTP2 and HTTPS run their configure step and propagate
its error; every other protocol value does nothing. -/
def runConfigureStep (cfg : Cfg) (fs : List String) : Except String Unit :=
  match cfg.protocol with
  | .http2 =>
    match configureHttp2 cfg fs with
    | .error e => .error e
    | .ok _ => .ok ()
  | .https =>
    match configureHttps cfg fs with
    | .error e => .error e
    | .ok _ => .ok ()
  | _ => .ok ()

/-- `getListener` (part_000 lines 303-332): a pre-supplied listener is
returned as-is; otherwise TCP modes bind on the server address, socket
mode binds the Unix socket (and adjusts its permissions), and any other
protocol is rejected with an "invalid protocol" error without opening
anything. Successful binds are modelled as succeeding. -/
def getListener (provided : Option Listener) (cfg : Cfg) : Except String Listener :=
  match provided with
  | some l => .ok l
  | none =>
    match cfg.protocol with
    | .http => .ok (.tcp (serverAddr cfg))
    | .https => .ok (.tcp (serverAddr cfg))
    | .http2 => .ok (.tcp (serverAddr cfg))
    | .socket => .ok (.unix cfg.socketPath)
    | .other s => .error ("invalid protocol \"" ++ s ++ "\"")

/-- What the accept loop (`httpSrv.Serve` / `httpSrv.ServeTLS`) returns
once it terminates: `http.ErrServerClosed` after a graceful shutdown,
some other error, or a nil error (listed for faithfulness to the
`if err != nil` shape of the code; the Go standard library never
actually returns nil there). -/
inductive ServeOutcome where
  | serverClosed
  | failed (msg : String)
  | nilError
  deriving BEq, DecidableEq, Repr

/-- Result of one invocation of `Run`:
`errBeforeListener`: an error returned by the transport-configure step,
before `getListener` is ever called — no listener created;
`errAtListener`: `getListener` itself returned an error — no socket
opened; `served`: the listener was acquired and the accept loop ran to
completion, with `Run`'s return value and whether `Run` executed the
`wg.Wait()` barrier on the shutdown watcher before returning;
`panicked`: the serve `switch` hit its default branch. -/
inductive RunOutcome where
  | errBeforeListener (msg : String)
  | errAtListener (msg : String)
  | served (l : Listener) (result : Except String Unit) (waitedForWatcher : Bool)
  | panicked (l : Listener) (msg : String)
  deriving Repr

/-- `Run` (part_000 lines 232-301), with the accept-loop outcome as an
explicit parameter. Mirrors the Go control flow: configure switch, then
`getListener`, then `wg.Add(1)` and the shutdown-watcher goroutine, then
the serve switch. In the serve branches, a `serverClosed` outcome makes
`Run` return nil *immediately* (`return nil` inside the branch) and a
`failed` outcome makes it return the error immediately — in both cases
the `wg.Wait()` at the bottom of `Run` is not executed
(`waitedForWatcher := false`). Only a nil serve error falls through to
`wg.Wait()`. The default serve branch panics. -/
def run (provided : Option Listener) (cfg : Cfg) (fs : List String)
    (outcome : ServeOutcome) : RunOutcome :=
  match runConfigureStep cfg fs with
  | .error e => .errBeforeListener e
  | .ok () =>
    match getListener provided cfg with
    | .error e => .errAtListener e
    | .ok l =>
      match cfg.protocol with
      | .http | .socket =>
        match outcome with
        | .serverClosed => .served l (.ok ()) false
        | .failed m => .served l (.error m) false
        | .nilError => .served l (.ok ()) true
      | .http2 | .https =>
        match outcome with
        | .serverClosed => .served l (.ok ()) false
        | .failed m => .served l (.error m) false
        | .nilError => .served l (.ok ()) true
      | .other s => .panicked l ("Unhandled protocol \"" ++ s ++ "\"")

/-- The middleware stages `addMiddlewaresAndStaticRoutes` installs that
live outside the shown sources (tracing, logging, gzip, recovery, the
static-file mappings, header policies, the renderer, the context/auth
handler, org redirect, permission loading, host validation, cache and
CSP headers, and the externally registered extra middlewares). Each is
an opaque stage function; the pipeline fixes only their order. -/
structure OpaqueStages where
  requestTracing : Stage
  logger : Stage
  gziper : Stage
  recovery : Stage
  staticBuild : Stage
  staticPublic : Stage
  staticRobots : Stage
  staticImages : Stage
  addDefaultResponseHeaders : Stage
  renderer : Stage
  contextHandler : Stage
  orgRedirect : Stage
  loadPermissions : Stage
  validateHostHeader : Stage
  handleNoCacheHeader : Stage
  addCSPHeader : Stage
  extra : List Stage

/-- The stages installed by `addMiddlewaresAndStaticRoutes` (part_000
lines 425-452) before the liveness handlers: tracing, logging, optional
gzip, recovery, the static mappings (with the optional image-attachment
mapping), default response headers, and the view renderer. -/
def preStages (cfg : Cfg) (o : OpaqueStages) : List Stage :=
  [o.requestTracing, o.logger]
    ++ (if cfg.enableGzip then [o.gziper] else [])
    ++ [o.recovery, o.staticBuild, o.staticPublic, o.staticRobots]
    ++ (if cfg.imageUploadProvider == "local" then [o.staticImages] else [])
    ++ [o.addDefaultResponseHeaders, o.renderer]

/-- The three liveness handlers, installed in source order (part_000
lines 456-458). -/
def livenessStages (cfg : Cfg) (dbHealthy : Bool) : List Stage :=
  [healthzHandler, apiHealthHandler cfg dbHealthy, metricsEndpoint cfg]

/-- The stages installed after the liveness handlers (part_000 lines
460-474): the context/auth handler, org redirect, permission loading,
optional host validation, cache/CSP headers, and the externally
registered extra middlewares. -/
def postStages (cfg : Cfg) (o : OpaqueStages) : List Stage :=
  [o.contextHandler, o.orgRedirect, o.loadPermissions]
    ++ (if cfg.enforceDomain then [o.validateHostHeader] else [])
    ++ [o.handleNoCacheHeader, o.addCSPHeader]
    ++ o.extra

/-- The full ordered stage list assembled by
`addMiddlewaresAndStaticRoutes` (part_000 lines 425-475). -/
def addMiddlewaresAndStaticRoutes (cfg : Cfg) (dbHealthy : Bool) (o : OpaqueStages) :
    List Stage :=
  preStages cfg o ++ livenessStages cfg dbHealthy ++ postStages cfg o

/-- Whether the stage at position `i` of the chain observes the request:
the chain invokes stage `i` exactly when every earlier stage fell
through without writing a response or delegating. -/
def stageObserves (stages : List Stage) (i : Nat) (req : Request) : Bool :=
  (stages.take i).all (fun s => s req == StageOut.pass)

/-- The first stage of the chain that handles the request (its position
and its outcome), or `none` when every stage falls through. -/
def firstResponder : List Stage → Request → Option (Nat × StageOut)
  | [], _ => none
  | s :: rest, req =>
    match s req with
    | .pass => (firstResponder rest req).map (fun p => (p.1 + 1, p.2))
    | out => some (0, out)

/-- A default configuration for concrete evaluations: plain HTTP on
127.0.0.1:3000, metrics enabled, no basic auth, production environment. -/
def baseCfg : Cfg where
  protocol := .http
  httpAddr := "127.0.0.1"
  httpPort := "3000"
  certFile := ""
  keyFile := ""
  socketPath := "/tmp/grafana.sock"
  appSubURL := ""
  serveFromSubPath := false
  staticRootPath := "public"
  enableGzip := false
  enforceDomain := false
  env := .prod
  imageUploadProvider := ""
  metricsEndpointEnabled := true
  metricsEndpointBasicAuthUsername := ""
  metricsEndpointBasicAuthPassword := ""
  anonymousHideVersion := false
  buildVersion := "8.4.0"
  buildCommit := "abcdef"

/-- An opaque stage that always falls through. -/
def passStage : Stage := fun _ => .pass

/-- A synthetic authentication-requiring stage: it rejects every request
it observes with 401. -/
def authRequiredStage : Stage := fun _ => .respond { status := 401, body := .empty }

/-- Opaque-stage assignment where every external middleware falls
through. -/
def oPass : OpaqueStages where
  requestTracing := passStage
  logger := passStage
  gziper := passStage
  recovery := passStage
  staticBuild := passStage
  staticPublic := passStage
  staticRobots := passStage
  staticImages := passStage
  addDefaultResponseHeaders := passStage
  renderer := passStage
  contextHandler := passStage
  orgRedirect := passStage
  loadPermissions := passStage
  validateHostHeader := passStage
  handleNoCacheHeader := passStage
  addCSPHeader := passStage
  extra := []

/-- Opaque-stage assignment where the context/auth stage is the
synthetic authentication-requiring stage and everything else falls
through. -/
def oAuth : OpaqueStages :=
  { oPass with contextHandler := authRequiredStage }

/- Helper lemmas about the stage chain. -/

theorem respond_beq_pass (r : Response) : (StageOut.respond r == StageOut.pass) = false := rfl

theorem delegate_beq_pass (h : String) : (StageOut.delegate h == StageOut.pass) = false := rfl

theorem observes_false_of_split (l1 l2 : List Stage) (s : Stage) (i : Nat) (req : Request)
    (hi : l1.length < i) (hs : (s req == StageOut.pass) = false) :
    stageObserves (l1 ++ s :: l2) i req = false := by
  unfold stageObserves
  rw [List.take_append_eq_append_take]
  obtain ⟨k, hk⟩ : ∃ k, i - l1.length = k + 1 := ⟨i - l1.length - 1, by omega⟩
  rw [hk, List.take_succ_cons]
  simp [List.all_append, List.all_cons, hs]

theorem pipeline_decomp_healthz (cfg : Cfg) (db : Bool) (o : OpaqueStages) :
    addMiddlewaresAndStaticRoutes cfg db o
      = preStages cfg o
          ++ healthzHandler
            :: (apiHealthHandler cfg db :: metricsEndpoint cfg :: postStages cfg o) := by
  simp [addMiddlewaresAndStaticRoutes, livenessStages]

theorem pipeline_decomp_apihealth (cfg : Cfg) (db : Bool) (o : OpaqueStages) :
    addMiddlewaresAndStaticRoutes cfg db o
      = (preStages cfg o ++ [healthzHandler])
          ++ apiHealthHandler cfg db :: (metricsEndpoint cfg :: postStages cfg o) := by
  simp [addMiddlewaresAndStaticRoutes, livenessStages]

theorem pipeline_decomp_metrics (cfg : Cfg) (db : Bool) (o : OpaqueStages) :
    addMiddlewaresAndStaticRoutes cfg db o
      = (preStages cfg o ++ [healthzHandler, apiHealthHandler cfg db])
          ++ metricsEndpoint cfg :: postStages cfg o := by
  simp [addMiddlewaresAndStaticRoutes, livenessStages]

theorem healthzHandler_responds (req : Request)
    (hm : ((req.method == "GET") || (req.method == "HEAD")) = true)
    (hp : (req.path == "/healthz") = true) :
    (healthzHandler req == StageOut.pass) = false := by
  simp only [Bool.or_eq_true] at hm
  rcases hm with h | h <;> simp [healthzHandler, h, hp, respond_beq_pass]

theorem apiHealthHandler_responds (cfg : Cfg) (db : Bool) (req : Request)
    (hm : ((req.method == "GET") || (req.method == "HEAD")) = true)
    (hp : (req.path == "/api/health") = true) :
    (apiHealthHandler cfg db req == StageOut.pass) = false := by
  simp only [Bool.or_eq_true] at hm
  rcases hm with h | h <;> cases db <;> simp [apiHealthHandler, h, hp, respond_beq_pass]

theorem metricsEndpoint_responds (cfg : Cfg) (req : Request)
    (he : cfg.metricsEndpointEnabled = true)
    (hm : (req.method == "GET") = true)
    (hp : (req.path == "/metrics") = true) :
    (metricsEndpoint cfg req == StageOut.pass) = false := by
  cases hb : (metricsEndpointBasicAuthEnabled cfg
      && !(BasicAuthenticatedRequest req cfg.metricsEndpointBasicAuthUsername
            cfg.metricsEndpointBasicAuthPassword)) <;>
    simp [metricsEndpoint, he, hm, hp, hb, respond_beq_pass, delegate_beq_pass]

/-- C2 (amended): the three liveness interceptors sit before the
context/auth stage and the permission-loading stage in the assembled
chain, and every GET or HEAD request to `/healthz` or `/api/health`,
and every GET request to `/metrics` while the metrics endpoint is
enabled, short-circuits before the context/auth stage: whatever the
opaque stages do, no stage at or after the context handler's position
(`(preStages cfg o).length + 3`) observes such a request. -/
theorem liveness_short_circuits_before_auth (cfg : Cfg) (dbHealthy : Bool)
    (o : OpaqueStages) (req : Request) (k : Nat)
    (hreq : (((req.method == "GET") || (req.method == "HEAD"))
               && ((req.path == "/healthz") || (req.path == "/api/health"))
             || cfg.metricsEndpointEnabled
               && ((req.method == "GET") && (req.path == "/metrics"))) = true) :
    stageObserves (addMiddlewaresAndStaticRoutes cfg dbHealthy o)
      ((preStages cfg o).length + 3 + k) req = false := by
  simp only [Bool.or_eq_true, Bool.and_eq_true] at hreq
  rcases hreq with ⟨hm, hp⟩ | ⟨he, hm, hp⟩
  · rcases hp with hp | hp
    · rw [pipeline_decomp_healthz]
      exact observes_false_of_split _ _ _ _ _ (by omega)
        (healthzHandler_responds req (by simp only [Bool.or_eq_true]; exact hm) hp)
    · rw [pipeline_decomp_apihealth]
      refine observes_false_of_split _ _ _ _ _ ?_
        (apiHealthHandler_responds cfg dbHealthy req (by simp only [Bool.or_eq_true]; exact hm) hp)
      simp only [List.length_append, List.length_cons, List.length_nil]
      omega
  · rw [pipeline_decomp_metrics]
    refine observes_false_of_split _ _ _ _ _ ?_
      (metricsEndpoint_responds cfg req he hm hp)
    simp only [List.length_append, List.length_cons, List.length_nil]
    omega

/-- Witness for C2's theorem: in the concrete assembled pipeline for
`baseCfg` with all-pass opaque stages, a GET `/healthz` request never
reaches the context handler's position. -/
theorem liveness_short_circuits_before_auth_witness :
    stageObserves (addMiddlewaresAndStaticRoutes baseCfg true oAuth)
      ((preStages baseCfg oAuth).length + 3 + 0)
      { method := "GET", path := "/healthz", basicAuth := none } = false :=
  liveness_short_circuits_before_auth baseCfg true oAuth
    { method := "GET", path := "/healthz", basicAuth := none } 0 (by decide)

/-- Counterexample to C2 as stated: a POST request to `/healthz` is not
short-circuited by any liveness interceptor — in the concrete pipeline
for `baseCfg` (gzip off, no image mapping, so the context handler sits
at position 11) with a synthetic authentication-requiring stage in the
context-handler slot, that stage observes and handles the request. -/
theorem post_healthz_reaches_auth_stage :
    firstResponder (addMiddlewaresAndStaticRoutes baseCfg true oAuth)
        { method := "POST", path := "/healthz", basicAuth := none }
      = some (11, .respond { status := 401, body := .empty })
    ∧ (addMiddlewaresAndStaticRoutes baseCfg true oAuth).get? 11
      = some oAuth.contextHandler := by
  exact ⟨rfl, rfl⟩

/- Helper: the HTTPS/HTTP2 configure steps reject a bad cert/key
setup. -/

theorem configureHttps_error_of_bad (cfg : Cfg) (fs : List String)
    (hbad : cfg.certFile = "" ∨ cfg.keyFile = ""
      ∨ ¬ cfg.certFile ∈ fs ∨ ¬ cfg.keyFile ∈ fs) :
    ∃ msg, configureHttps cfg fs = Except.error msg := by
  by_cases h1 : cfg.certFile = ""
  · exact ⟨"cert_file cannot be empty when using HTTPS", by simp [configureHttps, h1]⟩
  by_cases h2 : cfg.keyFile = ""
  · exact ⟨"cert_key cannot be empty when using HTTPS", by simp [configureHttps, h1, h2]⟩
  by_cases h3 : cfg.certFile ∈ fs
  · by_cases h4 : cfg.keyFile ∈ fs
    · rcases hbad with h | h | h | h <;> contradiction
    · exact ⟨"cannot find SSL key_file at \"" ++ cfg.keyFile ++ "\"",
        by simp [configureHttps, h1, h2, h3, h4]⟩
  · exact ⟨"cannot find SSL cert_file at \"" ++ cfg.certFile ++ "\"",
      by simp [configureHttps, h1, h2, h3]⟩

theorem configureHttp2_error_of_bad (cfg : Cfg) (fs : List String)
    (hbad : cfg.certFile = "" ∨ cfg.keyFile = ""
      ∨ ¬ cfg.certFile ∈ fs ∨ ¬ cfg.keyFile ∈ fs) :
    ∃ msg, configureHttp2 cfg fs = Except.error msg := by
  by_cases h1 : cfg.certFile = ""
  · exact ⟨"cert_file cannot be empty when using HTTP2", by simp [configureHttp2, h1]⟩
  by_cases h2 : cfg.keyFile = ""
  · exact ⟨"cert_key cannot be empty when using HTTP2", by simp [configureHttp2, h1, h2]⟩
  by_cases h3 : cfg.certFile ∈ fs
  · by_cases h4 : cfg.keyFile ∈ fs
    · rcases hbad with h | h | h | h <;> contradiction
    · exact ⟨"cannot find SSL key_file at \"" ++ cfg.keyFile ++ "\"",
        by simp [configureHttp2, h1, h2, h3, h4]⟩
  · exact ⟨"cannot find SSL cert_file at \"" ++ cfg.certFile ++ "\"",
      by simp [configureHttp2, h1, h2, h3]⟩

/-- C1 (amended): in the HTTPS and HTTP2 transport modes, an empty or
nonexistent certificate or key file makes `Run` fail during the
transport-configure step, before `getListener` is ever called — so no
listener is created and no socket opened. (The plain-HTTP and
Unix-socket modes perform no certificate checks; see the
counterexample.) -/
theorem tls_modes_fail_before_listener (provided : Option Listener) (cfg : Cfg)
    (fs : List String) (outcome : ServeOutcome)
    (hmode : cfg.protocol = Protocol.https ∨ cfg.protocol = Protocol.http2)
    (hbad : cfg.certFile = "" ∨ cfg.keyFile = ""
      ∨ ¬ cfg.certFile ∈ fs ∨ ¬ cfg.keyFile ∈ fs) :
    ∃ msg, run provided cfg fs outcome = RunOutcome.errBeforeListener msg := by
  rcases hmode with hm | hm
  · obtain ⟨msg, hmsg⟩ := configureHttps_error_of_bad cfg fs hbad
    exact ⟨msg, by simp [run, runConfigureStep, hm, hmsg]⟩
  · obtain ⟨msg, hmsg⟩ := configureHttp2_error_of_bad cfg fs hbad
    exact ⟨msg, by simp [run, runConfigureStep, hm, hmsg]⟩

/-- Witness for C1's theorem: HTTPS mode with an empty certificate path
and an empty file system fails before the listener step. -/
theorem tls_modes_fail_before_listener_witness :
    ∃ msg, run none { baseCfg with protocol := Protocol.https } [] ServeOutcome.serverClosed
      = RunOutcome.errBeforeListener msg :=
  tls_modes_fail_before_listener none { baseCfg with protocol := Protocol.https } []
    ServeOutcome.serverClosed (Or.inl rfl) (Or.inl rfl)

/-- Counterexample to C1 as stated ("for every transport mode"): in
plain-HTTP mode with an empty certificate and key path (the default
configuration), `Run` does not fail at all — it creates the TCP
listener and serves on it. -/
theorem http_mode_ignores_cert_config :
    run none baseCfg [] ServeOutcome.serverClosed
      = RunOutcome.served (Listener.tcp "127.0.0.1:3000") (Except.ok ()) false := by
  rfl

/-- C3 (code bug): on the graceful-shutdown return path `Run` does not
synchronize with the shutdown watcher. When the accept loop returns the
"server closed" condition, the `return nil` inside the serve branch
executes before the `wg.Wait()` at the bottom of `Run`, so `Run`
returns success with `waitedForWatcher = false` — the shutdown-watcher
goroutine (possibly still inside `Shutdown`) can outlive `Run`. -/
theorem graceful_shutdown_skips_wait_barrier :
    run none baseCfg [] ServeOutcome.serverClosed
      = RunOutcome.served (Listener.tcp "127.0.0.1:3000") (Except.ok ()) false
    ∧ run none { baseCfg with protocol := Protocol.socket } [] ServeOutcome.serverClosed
      = RunOutcome.served (Listener.unix "/tmp/grafana.sock") (Except.ok ()) false := by
  exact ⟨rfl, rfl⟩

/-- C4: once the configure step and listener acquisition succeed on a
recognized protocol, a "server closed" termination of the accept loop
makes `Run` return success (nil), and any other accept-loop error is
returned to the caller unchanged. -/
theorem serve_outcome_propagation (provided : Option Listener) (cfg : Cfg)
    (fs : List String) (l : Listener)
    (hconf : runConfigureStep cfg fs = Except.ok ())
    (hl : getListener provided cfg = Except.ok l)
    (hp : cfg.protocol = Protocol.http ∨ cfg.protocol = Protocol.socket
      ∨ cfg.protocol = Protocol.https ∨ cfg.protocol = Protocol.http2) :
    run provided cfg fs ServeOutcome.serverClosed
      = RunOutcome.served l (Except.ok ()) false
    ∧ ∀ m, run provided cfg fs (ServeOutcome.failed m)
      = RunOutcome.served l (Except.error m) false := by
  rcases hp with h | h | h | h <;>
    exact ⟨by simp [run, hconf, hl, h], fun m => by simp [run, hconf, hl, h]⟩

/-- Witness for C4's theorem at the default plain-HTTP configuration. -/
theorem serve_outcome_propagation_witness :
    run none baseCfg [] ServeOutcome.serverClosed
      = RunOutcome.served (Listener.tcp "127.0.0.1:3000") (Except.ok ()) false
    ∧ ∀ m, run none baseCfg [] (ServeOutcome.failed m)
      = RunOutcome.served (Listener.tcp "127.0.0.1:3000") (Except.error m) false :=
  serve_outcome_propagation none baseCfg [] (Listener.tcp "127.0.0.1:3000")
    rfl rfl (Or.inl rfl)

/-- C9: an unrecognized transport mode is fatal. Without a pre-supplied
listener, `Run` returns the "invalid protocol" error from
`getListener`, so serving never starts and no socket is opened; with a
pre-supplied listener the unrecognized mode reaches the serve `switch`,
whose default branch panics (a programming-error fatal condition). -/
theorem unrecognized_protocol_fatal (cfg : Cfg) (fs : List String)
    (outcome : ServeOutcome) (l : Listener) (s : String)
    (hp : cfg.protocol = Protocol.other s) :
    run none cfg fs outcome
      = RunOutcome.errAtListener ("invalid protocol \"" ++ s ++ "\"")
    ∧ run (some l) cfg fs outcome
      = RunOutcome.panicked l ("Unhandled protocol \"" ++ s ++ "\"") := by
  exact ⟨by simp [run, runConfigureStep, getListener, hp],
         by simp [run, runConfigureStep, getListener, hp]⟩

/-- Witness for C9's theorem at the concrete unrecognized mode `ftp`. -/
theorem unrecognized_protocol_fatal_witness :
    run none { baseCfg with protocol := Protocol.other "ftp" } [] ServeOutcome.serverClosed
      = RunOutcome.errAtListener ("invalid protocol \"" ++ "ftp" ++ "\"")
    ∧ run (some (Listener.supplied 0)) { baseCfg with protocol := Protocol.other "ftp" } []
        ServeOutcome.serverClosed
      = RunOutcome.panicked (Listener.supplied 0) ("Unhandled protocol \"" ++ "ftp" ++ "\"") :=
  unrecognized_protocol_fatal { baseCfg with protocol := Protocol.other "ftp" } []
    ServeOutcome.serverClosed (Listener.supplied 0) "ftp" rfl

/-- C5: `healthzHandler` responds 200 with body `Ok` to every GET or
HEAD request whose path is exactly `/healthz` — it reads neither
authentication state, database state, nor any later middleware — and
falls through for every other method or path. -/
theorem healthz_contract (req : Request) :
    healthzHandler req =
      if ((req.method == "GET") || (req.method == "HEAD")) && (req.path == "/healthz") then
        StageOut.respond { status := 200, body := Body.plain "Ok" }
      else
        StageOut.pass := by
  cases hG : req.method == "GET" <;> cases hH : req.method == "HEAD" <;>
    cases hP : req.path == "/healthz" <;> simp [healthzHandler, hG, hH, hP]

/-- C6: for a GET or HEAD request to exactly `/api/health`,
`apiHealthHandler` responds 200 with `database = "ok"` when the
persistence probe succeeds and 503 with `database = "failing"` when it
fails (a written response either way, not an error), and the
`version`/`commit` fields are present exactly when
`AnonymousHideVersion` is off. -/
theorem api_health_contract (cfg : Cfg) (dbHealthy : Bool) (req : Request)
    (h : (((req.method == "GET") || (req.method == "HEAD"))
      && (req.path == "/api/health")) = true) :
    apiHealthHandler cfg dbHealthy req =
      StageOut.respond
        { status := if dbHealthy then 200 else 503,
          body := Body.health (if dbHealthy then "ok" else "failing")
            (if cfg.anonymousHideVersion then none else some cfg.buildVersion)
            (if cfg.anonymousHideVersion then none else some cfg.buildCommit) } := by
  simp only [Bool.and_eq_true, Bool.or_eq_true] at h
  obtain ⟨hm, hp⟩ := h
  cases dbHealthy <;> cases hh : cfg.anonymousHideVersion <;>
    rcases hm with hm | hm <;> simp [apiHealthHandler, hp, hm, hh]

/-- Witness for C6's theorem: GET `/api/health` with a healthy database
and version hiding off. -/
theorem api_health_contract_witness :
    apiHealthHandler baseCfg true { method := "GET", path := "/api/health", basicAuth := none } =
      StageOut.respond
        { status := if true then 200 else 503,
          body := Body.health (if true then "ok" else "failing")
            (if baseCfg.anonymousHideVersion then none else some baseCfg.buildVersion)
            (if baseCfg.anonymousHideVersion then none else some baseCfg.buildCommit) } :=
  api_health_contract baseCfg true
    { method := "GET", path := "/api/health", basicAuth := none } (by decide)

/-- C7: with the metrics endpoint enabled and the request exactly GET
`/metrics`: when basic auth is enabled and the request's credentials do
not match, the stage writes 401 with an empty body and never reaches
the exposition handler; when the credentials match or basic auth is not
enabled, it delegates to the `promhttp` exposition handler. For any
other method or path, or with the endpoint disabled, the stage falls
through. -/
theorem metrics_endpoint_contract (cfg : Cfg) (req : Request) :
    (cfg.metricsEndpointEnabled = true → req.method = "GET" → req.path = "/metrics" →
      (metricsEndpointBasicAuthEnabled cfg = true →
        BasicAuthenticatedRequest req cfg.metricsEndpointBasicAuthUsername
            cfg.metricsEndpointBasicAuthPassword = false →
        metricsEndpoint cfg req = StageOut.respond { status := 401, body := Body.empty })
      ∧ (metricsEndpointBasicAuthEnabled cfg = false ∨
          BasicAuthenticatedRequest req cfg.metricsEndpointBasicAuthUsername
            cfg.metricsEndpointBasicAuthPassword = true →
        metricsEndpoint cfg req = StageOut.delegate "promhttp"))
    ∧ ((cfg.metricsEndpointEnabled = false ∨ req.method ≠ "GET" ∨ req.path ≠ "/metrics") →
        metricsEndpoint cfg req = StageOut.pass) := by
  constructor
  · intro he hm hp
    constructor
    · intro hb hauth
      simp [metricsEndpoint, he, hm, hp, hb, hauth]
    · rintro (hb | hauth)
      · simp [metricsEndpoint, he, hm, hp, hb]
      · cases hb2 : metricsEndpointBasicAuthEnabled cfg <;>
          simp [metricsEndpoint, he, hm, hp, hb2, hauth]
  · rintro (he | hm | hp)
    · simp [metricsEndpoint, he]
    · have : (req.method == "GET") = false := by simp [hm]
      simp [metricsEndpoint, this]
    · have : (req.path == "/metrics") = false := by simp [hp]
      simp [metricsEndpoint, this]

/-- Witness for C7's theorem: metrics enabled with basic auth
configured and wrong credentials yields 401 with an empty body. -/
theorem metrics_endpoint_contract_witness :
    metricsEndpoint
        { baseCfg with metricsEndpointBasicAuthUsername := "admin",
                       metricsEndpointBasicAuthPassword := "secret" }
        { method := "GET", path := "/metrics", basicAuth := some ("admin", "wrong") }
      = StageOut.respond { status := 401, body := Body.empty } :=
  ((metrics_endpoint_contract
      { baseCfg with metricsEndpointBasicAuthUsername := "admin",
                     metricsEndpointBasicAuthPassword := "secret" }
      { method := "GET", path := "/metrics", basicAuth := some ("admin", "wrong") }).1
    rfl rfl rfl).1 (by decide) (by decide)

/-- C8: the `Cache-Control` header chosen by `mapStatic` is a function
of environment and prefix alone; the `public/build` mapping gets the
one-year `max-age=31536000` value in every non-development environment,
the development environment forces the cache-busting value on every
mapping, and every other mapping in a non-development environment gets
the short-lived `max-age=3600` value. -/
theorem map_static_cache_control_contract (env : Env) (pfx : String) :
    (env ≠ Env.dev →
      mapStaticCacheControl env "public/build" = "public, max-age=31536000")
    ∧ mapStaticCacheControl Env.dev pfx = "max-age=0, must-revalidate, no-cache"
    ∧ (env ≠ Env.dev → pfx ≠ "public/build" →
      mapStaticCacheControl env pfx = "public, max-age=3600") := by
  refine ⟨?_, rfl, ?_⟩
  · intro hne
    have h1 : (env == Env.dev) = false := by
      cases env
      case dev => exact absurd rfl hne
      all_goals rfl
    simp [mapStaticCacheControl, h1]
  · intro hne hpfx
    have h1 : (env == Env.dev) = false := by
      cases env
      case dev => exact absurd rfl hne
      all_goals rfl
    have h2 : (pfx == "public/build") = false := by simp [hpfx]
    simp [mapStaticCacheControl, h1, h2]

/-- Witness for C8's theorem at the production environment and the
`public` prefix. -/
theorem map_static_cache_control_contract_witness :
    mapStaticCacheControl Env.prod "public/build" = "public, max-age=31536000"
    ∧ mapStaticCacheControl Env.dev "public" = "max-age=0, must-revalidate, no-cache"
    ∧ mapStaticCacheControl Env.prod "public" = "public, max-age=3600" :=
  ⟨(map_static_cache_control_contract Env.prod "public").1 (by decide),
   (map_static_cache_control_contract Env.prod "public").2.1,
   (map_static_cache_control_contract Env.prod "public").2.2 (by decide) (by decide)⟩

/-- C10: basic authentication on the metrics endpoint is enforced
exactly when both the configured username and the configured password
are non-empty; with either one empty (in particular with exactly one of
the two configured), an enabled GET `/metrics` request is delegated to
the exposition handler regardless of what credentials it carries. -/
theorem metrics_basic_auth_enabled_iff (cfg : Cfg) (req : Request) :
    (metricsEndpointBasicAuthEnabled cfg = true ↔
      cfg.metricsEndpointBasicAuthUsername ≠ "" ∧ cfg.metricsEndpointBasicAuthPassword ≠ "")
    ∧ (cfg.metricsEndpointEnabled = true → req.method = "GET" → req.path = "/metrics" →
        (cfg.metricsEndpointBasicAuthUsername = "" ∨ cfg.metricsEndpointBasicAuthPassword = "") →
        metricsEndpoint cfg req = StageOut.delegate "promhttp") := by
  constructor
  · simp [metricsEndpointBasicAuthEnabled]
  · intro he hm hp hone
    have hb : metricsEndpointBasicAuthEnabled cfg = false := by
      rcases hone with h | h <;> simp [metricsEndpointBasicAuthEnabled, h]
    simp [metricsEndpoint, he, hm, hp, hb]

/-- Witness for C10's theorem: password configured, username empty, a
credential-less GET `/metrics` request is served the exposition
payload. -/
theorem metrics_basic_auth_enabled_iff_witness :
    metricsEndpoint { baseCfg with metricsEndpointBasicAuthPassword := "secret" }
        { method := "GET", path := "/metrics", basicAuth := none }
      = StageOut.delegate "promhttp" :=
  (metrics_basic_auth_enabled_iff
      { baseCfg with metricsEndpointBasicAuthPassword := "secret" }
      { method := "GET", path := "/metrics", basicAuth := none }).2
    rfl rfl rfl (Or.inl rfl)

end GrafanaHTTP
